import Mathlib

/-!
Shallow embedding of `src/src/app.py`, a Flask currency-conversion gateway.

The numerically load-bearing part of the program is Python's `decimal`
module, used with the default context (28 significant digits of precision):
`convert` computes `(amount * rate).quantize(Decimal('0.01'), ROUND_HALF_UP)`
(line 178).  Finite `Decimal` values are modelled as a signed coefficient
together with a decimal exponent (`DecFin`), special values (`Infinity`,
`NaN`) by the wrapper `PyDecimal`.  Multiplication rounds the ideal product
to 28 significant digits half-even, exactly as the default `decimal`
context does; `quantize` raises `InvalidOperation` when the resulting
coefficient would exceed 28 digits.

The rate fetch (`get_exchange_rate`, lines 68-106) is modelled over an
abstract outcome of the single outbound HTTP call; its `try/except` blocks
catch `requests.exceptions.RequestException`, `KeyError` and `ValueError`
but not `TypeError` or `decimal.InvalidOperation`, which therefore escape
to Flask's 500 handler.  The cache is the module-level dict
`exchange_cache`, modelled as a function from key strings to optional
entries (a Python dict holds at most one value per key).
-/

deriving instance DecidableEq for Except

namespace CurrencyApp

/-- Finite Python `Decimal` value: signed coefficient `man` and decimal
exponent `exp`; the numerical value is `man * 10 ^ exp`.  (Python keeps the
sign apart from the coefficient, which additionally allows a signed zero;
the sign of zero is irrelevant to every operation in app.py.) -/
structure DecFin where
  man : ℤ
  exp : ℤ
  deriving DecidableEq, Repr

/-- Numerical value of a finite decimal, as an exact rational. -/
def DecFin.toRat (d : DecFin) : ℚ := d.man * (10 : ℚ) ^ d.exp

/-- Python exception classes distinguished by the handlers in app.py.
`invalidOperation` (`decimal.InvalidOperation`) derives from
`ArithmeticError`, not from `ValueError`, so the `except (KeyError,
ValueError)` clause at line 104 does not catch it. -/
inductive PyError where
  | requestException
  | keyError
  | valueError
  | typeError
  | invalidOperation
  deriving DecidableEq, Repr

/-- Digit-count helper: structural recursion on a fuel argument. -/
def numDigitsAux : ℕ → ℕ → ℕ
  | 0, _ => 0
  | _ + 1, 0 => 0
  | fuel + 1, n + 1 => numDigitsAux fuel ((n + 1) / 10) + 1

/-- Number of decimal digits of a coefficient, as Python's `decimal`
counts them (the coefficient 0 has one digit). -/
def numDigits (n : ℕ) : ℕ := if n = 0 then 1 else numDigitsAux n n

/-- Precision of the default Python `decimal` context (`getcontext().prec`). -/
def contextPrec : ℕ := 28

/-- Round the ideal coefficient `m` (exponent `e`) by dropping `drop`
digits, half-even — the rounding the default decimal context applies to
arithmetic results that exceed `contextPrec` digits.  When rounding up
produces a coefficient of `contextPrec + 1` digits (a power of ten), one
more digit is shed. -/
def roundHalfEvenAt (m : ℤ) (e : ℤ) (drop : ℕ) : DecFin :=
  let d : ℕ := 10 ^ drop
  let q : ℕ := m.natAbs / d
  let r : ℕ := m.natAbs % d
  let roundUp : Bool := decide (d < 2 * r) || (decide (2 * r = d) && decide (q % 2 = 1))
  let q1 : ℕ := if roundUp then q + 1 else q
  let qe : ℕ × ℤ := if contextPrec < numDigits q1 then (q1 / 10, e + drop + 1) else (q1, e + drop)
  ⟨if m < 0 then -(qe.1 : ℤ) else (qe.1 : ℤ), qe.2⟩

/-- `a * b` in the default decimal context: the ideal product
(coefficients multiplied, exponents added) is exact when its coefficient
fits in `contextPrec` digits, and otherwise is rounded half-even to
`contextPrec` significant digits. -/
def DecFin.mulCtx (a b : DecFin) : DecFin :=
  if numDigits (a.man * b.man).natAbs ≤ contextPrec then ⟨a.man * b.man, a.exp + b.exp⟩
  else roundHalfEvenAt (a.man * b.man) (a.exp + b.exp)
    (numDigits (a.man * b.man).natAbs - contextPrec)

/-- Rounded coefficient of the half-up quantisation of a finite decimal
with exponent below `-2`: with `d = 10 ^ (number of dropped digits)`,
`q = |man| / d` and `r = |man| % d`, round up exactly when `r ≥ d / 2`
(ties rounding up in magnitude, i.e. away from zero). -/
def halfUpCoeff (a : DecFin) : ℕ :=
  if 10 ^ (-(a.exp + 2)).toNat ≤ 2 * (a.man.natAbs % 10 ^ (-(a.exp + 2)).toNat) then
    a.man.natAbs / 10 ^ (-(a.exp + 2)).toNat + 1
  else
    a.man.natAbs / 10 ^ (-(a.exp + 2)).toNat

/-- `a.quantize(Decimal('0.01'), rounding=ROUND_HALF_UP)` on a finite
decimal (line 178): rescale to exponent `-2`, rounding half-up (ties away
from zero); raise `InvalidOperation` when the resulting coefficient would
have more than `contextPrec` digits. -/
def DecFin.quantize2 (a : DecFin) : Except PyError DecFin :=
  if -2 ≤ a.exp then
    if numDigits (a.man * (10 : ℤ) ^ (a.exp + 2).toNat).natAbs ≤ contextPrec then
      .ok ⟨a.man * (10 : ℤ) ^ (a.exp + 2).toNat, -2⟩
    else .error .invalidOperation
  else
    if numDigits (halfUpCoeff a) ≤ contextPrec then
      .ok ⟨if a.man < 0 then -(halfUpCoeff a : ℤ) else (halfUpCoeff a : ℤ), -2⟩
    else .error .invalidOperation

/-- A Python `Decimal`: finite value or one of the special values.  (The
quiet/signaling NaN distinction is irrelevant here: every use of a NaN in
app.py is an ordered comparison, which raises for both.) -/
inductive PyDecimal where
  | finite (d : DecFin)
  | posInf
  | negInf
  | nan
  deriving DecidableEq, Repr

/-- Value comparison `a <= b` of two finite decimals, computed on integer
coefficients brought to the common (minimal) exponent — exactly the
comparison Python's `decimal` performs. -/
def DecFin.bleVal (a b : DecFin) : Bool :=
  let e := min a.exp b.exp
  decide (a.man * 10 ^ (a.exp - e).toNat ≤ b.man * 10 ^ (b.exp - e).toNat)

/-- Python `Decimal` ordered comparison `a <= b`: value comparison on
finite operands and infinities; any NaN operand raises `InvalidOperation`. -/
def PyDecimal.le : PyDecimal → PyDecimal → Except PyError Bool
  | .nan, _ => .error .invalidOperation
  | _, .nan => .error .invalidOperation
  | .finite a, .finite b => .ok (a.bleVal b)
  | .finite _, .posInf => .ok true
  | .finite _, .negInf => .ok false
  | .posInf, .posInf => .ok true
  | .posInf, _ => .ok false
  | .negInf, _ => .ok true

/-- Python `Decimal` multiplication `a * b`: context multiplication on
finite operands, sign rules for infinities, `0 * Infinity` raises
`InvalidOperation`, a (quiet) NaN propagates. -/
def PyDecimal.mul : PyDecimal → PyDecimal → Except PyError PyDecimal
  | .nan, _ => .ok .nan
  | _, .nan => .ok .nan
  | .finite a, .finite b => .ok (.finite (a.mulCtx b))
  | .finite a, .posInf =>
      if 0 < a.man then .ok .posInf
      else if a.man < 0 then .ok .negInf
      else .error .invalidOperation
  | .finite a, .negInf =>
      if 0 < a.man then .ok .negInf
      else if a.man < 0 then .ok .posInf
      else .error .invalidOperation
  | .posInf, .finite b =>
      if 0 < b.man then .ok .posInf
      else if b.man < 0 then .ok .negInf
      else .error .invalidOperation
  | .negInf, .finite b =>
      if 0 < b.man then .ok .negInf
      else if b.man < 0 then .ok .posInf
      else .error .invalidOperation
  | .posInf, .posInf => .ok .posInf
  | .posInf, .negInf => .ok .negInf
  | .negInf, .posInf => .ok .negInf
  | .negInf, .negInf => .ok .posInf

/-- `quantize(Decimal('0.01'), ROUND_HALF_UP)` on a general `Decimal`:
an infinity raises `InvalidOperation`, a quiet NaN propagates. -/
def PyDecimal.quantize2 : PyDecimal → Except PyError PyDecimal
  | .finite a => (a.quantize2).map .finite
  | .nan => .ok .nan
  | .posInf => .error .invalidOperation
  | .negInf => .error .invalidOperation

/-! ### The `Decimal` string constructor

`Decimal(value)` for a string argument: CPython first strips leading and
trailing Unicode whitespace, removes underscores, and translates every
Unicode decimal digit (category `Nd`, e.g. `٥` or `１`) to its value;
then the decimal numeric string grammar applies —
`[sign] (digits [. digits] | . digits | Infinity | Inf |
NaN digits | sNaN digits) [(e | E) [sign] digits]`, case-insensitively.
A string outside the grammar raises `decimal.InvalidOperation`
(modelled as a `none` parse). -/

/-- First code points of the Unicode (15.0) `Nd` blocks: each block is a
run of ten consecutive decimal digits 0-9.  CPython's `Decimal`
constructor accepts a digit from any of these blocks, at its value. -/
def ndBlockStarts : List ℕ :=
  [0x0030, 0x0660, 0x06F0, 0x07C0, 0x0966, 0x09E6, 0x0A66, 0x0AE6, 0x0B66, 0x0BE6,
   0x0C66, 0x0CE6, 0x0D66, 0x0DE6, 0x0E50, 0x0ED0, 0x0F20, 0x1040, 0x1090, 0x17E0,
   0x1810, 0x1946, 0x19D0, 0x1A80, 0x1A90, 0x1B50, 0x1BB0, 0x1C40, 0x1C50, 0xA620,
   0xA8D0, 0xA900, 0xA9D0, 0xA9F0, 0xAA50, 0xABF0, 0xFF10, 0x104A0, 0x10D30, 0x11066,
   0x110F0, 0x11136, 0x111D0, 0x112F0, 0x11450, 0x114D0, 0x11650, 0x116C0, 0x11730,
   0x118E0, 0x11950, 0x11C50, 0x11D50, 0x11DA0, 0x11F50, 0x16A60, 0x16AC0, 0x16B50,
   0x1D7CE, 0x1D7D8, 0x1D7E2, 0x1D7EC, 0x1D7F6, 0x1E140, 0x1E2F0, 0x1E4F0, 0x1E950,
   0x1FBF0]

/-- Decimal value of a character, when it is a Unicode decimal digit
(`Py_UNICODE_TODECIMAL`, applied by the `Decimal` constructor before the
grammar). -/
def pyDigitVal (c : Char) : Option ℕ :=
  (ndBlockStarts.find? (fun s => s ≤ c.toNat && c.toNat < s + 10)).map
    (fun s => c.toNat - s)

/-- Whether a character is a Unicode decimal digit. -/
def pyIsDigit (c : Char) : Bool := (pyDigitVal c).isSome

/-- Whether a character is whitespace for Python strings
(`Py_UNICODE_ISSPACE`): the characters `str.strip()` and the `Decimal`
constructor strip, which go beyond ASCII whitespace (for example
form-feed `\x0c` and no-break space `\xa0`). -/
def pyIsSpace (c : Char) : Bool :=
  let n := c.toNat
  (0x09 ≤ n && n ≤ 0x0D) || (0x1C ≤ n && n ≤ 0x1F) || n == 0x20 || n == 0x85 ||
    n == 0xA0 || n == 0x1680 || (0x2000 ≤ n && n ≤ 0x200A) || n == 0x2028 ||
    n == 0x2029 || n == 0x202F || n == 0x205F || n == 0x3000

/-- Value of a most-significant-first digit string (each character a
Unicode decimal digit). -/
def digitsVal (cs : List Char) : ℕ :=
  cs.foldl (fun n c => n * 10 + (pyDigitVal c).getD 0) 0

/-- Normalisation the `Decimal` constructor applies to a string argument:
drop underscores, strip surrounding Unicode whitespace, lower-case (the
grammar keywords and the exponent marker are case-insensitive). -/
def pyClean (s : String) : List Char :=
  let noUnderscore := s.data.filter (fun c => c ≠ '_')
  let l := noUnderscore.dropWhile pyIsSpace
  ((l.reverse.dropWhile pyIsSpace).reverse).map Char.toLower

/-- Split an optional leading sign; `true` means negative. -/
def splitSign : List Char → Bool × List Char
  | '-' :: rest => (true, rest)
  | '+' :: rest => (false, rest)
  | cs => (false, cs)

/-- Parse the exponent part (after `e`): an optionally signed nonempty
digit string. -/
def parseExponent (cs : List Char) : Option ℤ :=
  let sd := splitSign cs
  if sd.2 ≠ [] ∧ sd.2.all pyIsDigit then
    some (if sd.1 then -(digitsVal sd.2 : ℤ) else (digitsVal sd.2 : ℤ))
  else none

/-- Parse the coefficient part: `digits [. digits]` or `. digits` or
`digits .` — at least one digit in total, at most one point.  Returns the
digits' value and the number of fractional digits. -/
def parseCoeff (cs : List Char) : Option (ℕ × ℕ) :=
  match cs.splitOn '.' with
  | [ip] => if ip ≠ [] ∧ ip.all pyIsDigit then some (digitsVal ip, 0) else none
  | [ip, fp] =>
      if (ip ≠ [] ∨ fp ≠ []) ∧ ip.all pyIsDigit ∧ fp.all pyIsDigit then
        some (digitsVal (ip ++ fp), fp.length)
      else none
  | _ => none

/-- `Decimal(s)` for a string `s`: `some` of the constructed value, or
`none` when the constructor raises `InvalidOperation`. -/
def pyDecimalParse (s : String) : Option PyDecimal :=
  let cs := pyClean s
  let sd := splitSign cs
  if sd.2 = ['i', 'n', 'f'] ∨ sd.2 = ['i', 'n', 'f', 'i', 'n', 'i', 't', 'y'] then
    some (if sd.1 then .negInf else .posInf)
  else if sd.2.take 3 = ['n', 'a', 'n'] ∧ (sd.2.drop 3).all pyIsDigit then
    some .nan
  else if sd.2.take 4 = ['s', 'n', 'a', 'n'] ∧ (sd.2.drop 4).all pyIsDigit then
    some .nan
  else
    match sd.2.splitOn 'e' with
    | [coeffCs] =>
        (parseCoeff coeffCs).map fun vf =>
          .finite ⟨if sd.1 then -(vf.1 : ℤ) else (vf.1 : ℤ), -(vf.2 : ℤ)⟩
    | [coeffCs, expCs] =>
        match parseCoeff coeffCs, parseExponent expCs with
        | some vf, some ex =>
            some (.finite ⟨if sd.1 then -(vf.1 : ℤ) else (vf.1 : ℤ), ex - vf.2⟩)
        | _, _ => none
    | _ => none

/-! ### The upstream call and `get_exchange_rate` (lines 68-106)

The single `requests.get(url, timeout=10)` call is modelled by an abstract
`HttpOutcome`; its JSON body by a `Json` tree.  The `try` block catches
`requests.exceptions.RequestException` (network errors, the timeout,
and the `HTTPError` from `raise_for_status`) and `(KeyError, ValueError)`;
everything else escapes `get_exchange_rate`. -/

/-- Timeout, in seconds, passed to `requests.get` at line 82. -/
def requestsGetTimeoutSeconds : ℕ := 10

/-- A JSON value as Python's `json` module delivers it.  A number is
recorded by the finite decimal `str()` reproduces for it (the `json`
module parses numbers through `float`; that quantisation happens before
the code under study runs and is abstracted here). -/
inductive Json where
  | null
  | bool (b : Bool)
  | num (d : DecFin)
  | str (s : String)
  | arr (elems : List Json)
  | obj (fields : List (String × Json))

/-- Outcome of the single outbound `requests.get` call: a network-level
failure, a timeout, or a response with a status code and (when the body
is valid JSON) a parsed body. -/
inductive HttpOutcome where
  | networkError
  | timeoutError
  | response (status : ℕ) (body : Option Json)

/-- Lines 82-99 of `get_exchange_rate`, given the outcome of the one
outbound call: `.ok (some r)` is a fetched rate, `.ok none` models the
handled-exception paths that `return None` (lines 101-106), `.error e`
an exception the `except` clauses do not catch, which escapes to Flask.

* network error / timeout: `RequestException`, caught → `None`;
* `raise_for_status()` raises `HTTPError` (a `RequestException`) for
  status codes 400-599, caught → `None`;
* a body that is not valid JSON raises a `ValueError` subclass (or
  `requests.exceptions.JSONDecodeError`, a `RequestException`),
  caught → `None`;
* `data['rates']` on a non-dict raises `TypeError` — not caught;
* a dict without `'rates'` raises `KeyError`, caught → `None`;
* `data['rates'][to_currency]` on a non-dict raises `TypeError` — not
  caught; a dict without the key raises `KeyError`, caught → `None`;
* `Decimal(str(v))`: a JSON number round-trips; a string parses by the
  decimal grammar or raises `InvalidOperation` — not caught; `str()` of
  `None`/`True`/`False`/lists/dicts is never a decimal numeral, so those
  raise `InvalidOperation` — not caught. -/
def fetchAttempt (outcome : HttpOutcome) (toCurrency : String) :
    Except PyError (Option PyDecimal) :=
  match outcome with
  | .networkError => .ok none
  | .timeoutError => .ok none
  | .response status body =>
    if 400 ≤ status ∧ status < 600 then .ok none
    else
      match body with
      | none => .ok none
      | some (.obj fields) =>
        match fields.find? (fun kv => kv.1 == "rates") with
        | none => .ok none
        | some kv =>
          match kv.2 with
          | .obj rfields =>
            match rfields.find? (fun kv2 => kv2.1 == toCurrency) with
            | none => .ok none
            | some kv2 =>
              match kv2.2 with
              | .num d => .ok (some (.finite d))
              | .str s =>
                match pyDecimalParse s with
                | some p => .ok (some p)
                | none => .error .invalidOperation
              | _ => .error .invalidOperation
          | _ => .error .typeError
      | some _ => .error .typeError

/-- One entry of the module-level dict `exchange_cache`:
`{'rate': ..., 'timestamp': ...}` (lines 89-92). -/
structure CachedRate where
  rate : PyDecimal
  timestamp : ℚ
  deriving DecidableEq

/-- The module-level dict `exchange_cache`, as a map from key strings to
optional entries: a Python dict holds at most one value per key. -/
abbrev Cache := String → Option CachedRate

/-- The `try` block of `get_exchange_rate` (lines 79-106): perform the
fetch and, on success, store `{'rate': rate, 'timestamp': current_time}`
under the cache key (lines 89-92); on a handled failure return `None`
leaving the cache untouched; an uncaught exception also leaves the cache
untouched (the assignment at line 89 is never reached). -/
def fetchAndStore (cache : Cache) (now : ℚ) (outcome : HttpOutcome)
    (cacheKey toCurrency : String) :
    Except PyError (Option PyDecimal) × Cache × ℕ :=
  match fetchAttempt outcome toCurrency with
  | .ok (some rate) =>
      (.ok (some rate), fun k => if k = cacheKey then some ⟨rate, now⟩ else cache k, 1)
  | .ok none => (.ok none, cache, 1)
  | .error e => (.error e, cache, 1)

/-- `get_exchange_rate(from_currency, to_currency)` (lines 68-106).
Inputs beyond the two currency codes: the current cache, the value of
`time.time()` and the outcome of the (at most one) outbound call.
Returns the result (`.ok (some rate)`, the `None` of a handled failure,
or an escaping exception), the cache afterwards, and how many outbound
calls were made.  The cache key is `f"{from_currency}_{to_currency}"`
(line 69); a cached entry younger than 3600 seconds is returned without
any outbound call (lines 73-77). -/
def get_exchange_rate (cache : Cache) (now : ℚ) (outcome : HttpOutcome)
    (fromCurrency toCurrency : String) :
    Except PyError (Option PyDecimal) × Cache × ℕ :=
  match cache (fromCurrency ++ "_" ++ toCurrency) with
  | some cachedData =>
      if now - cachedData.timestamp < 3600 then (.ok (some cachedData.rate), cache, 0)
      else fetchAndStore cache now outcome (fromCurrency ++ "_" ++ toCurrency) toCurrency
  | none => fetchAndStore cache now outcome (fromCurrency ++ "_" ++ toCurrency) toCurrency

/-- `POST /cache/clear` (lines 207-216): `exchange_cache.clear()`. -/
def clear_cache (_cache : Cache) : Cache := fun _ => none

/-- The static list served by `GET /currencies` (line 142). -/
def supported_currencies : List String :=
  ["USD", "EUR", "GBP", "JPY", "CAD", "AUD", "CHF", "CNY", "INR", "BRL"]

/-! ### The `/convert` handler (lines 148-197) -/

/-- Python `str.upper()` (restricted to the simple per-character case,
which covers every character this program compares against). -/
def pyUpper (s : String) : String := ⟨s.data.map Char.toUpper⟩

/-- The three query parameters of `/convert`; `none` models an absent
parameter, for which `request.args.get(name, '')` yields `''`. -/
structure ConvertRequest where
  fromParam : Option String
  toParam : Option String
  amountParam : Option String

/-- The distinguishable response bodies `/convert` can produce (their
status codes in `ConvertResponse.status`). `internalError` is Flask's
500 handler (lines 235-242), reached when an uncaught exception escapes
the handler. -/
inductive ConvertResponse where
  | missingParams (required : List String) (exampleUrl : String)
  | amountNotPositive
  | amountInvalid
  | rateUnavailable
  | success (fromCurrency toCurrency : String) (amount convertedAmount rate : PyDecimal)
  | internalError
  deriving DecidableEq

/-- HTTP status code of each response. -/
def ConvertResponse.status : ConvertResponse → ℕ
  | .missingParams _ _ => 400
  | .amountNotPositive => 400
  | .amountInvalid => 400
  | .rateUnavailable => 400
  | .success _ _ _ _ _ => 200
  | .internalError => 500

/-- The `error` field of each response body (lines 161, 169, 171, 176,
240; the success body has none). -/
def ConvertResponse.errorMessage : ConvertResponse → Option String
  | .missingParams _ _ => some "Paramètres manquants"
  | .amountNotPositive => some "Le montant doit être positif"
  | .amountInvalid => some "Montant invalide"
  | .rateUnavailable => some "Taux de change non disponible"
  | .success _ _ _ _ _ => none
  | .internalError => some "Erreur interne du serveur"

/-- Whether a response is one of the three parameter-validation errors
(lines 159-171), as opposed to the rate-unavailable error, a success, or
an internal error. -/
def ConvertResponse.isValidationError : ConvertResponse → Bool
  | .missingParams _ _ => true
  | .amountNotPositive => true
  | .amountInvalid => true
  | _ => false

/-- The `trace_id` field of each response body, given the request's trace
id: present in the success body (line 196) and in the 500 handler's body
(line 241), absent from every 400 body (lines 160-176). -/
def ConvertResponse.bodyTraceId (tid : String) : ConvertResponse → Option String
  | .success _ _ _ _ _ => some tid
  | .internalError => some tid
  | _ => none

/-- The `/convert` handler (lines 148-197).  `amount = Decimal(amount_str)`
and the `amount <= 0` comparison sit in a bare-`except` block, so both an
unparseable string and a NaN comparison yield the 400 "Montant invalide"
response; an exception escaping `get_exchange_rate` or the
multiply-and-quantize at line 178 reaches Flask's 500 handler. -/
def convert (req : ConvertRequest) (cache : Cache) (now : ℚ) (outcome : HttpOutcome) :
    ConvertResponse × Cache × ℕ :=
  let fromCurrency := pyUpper (req.fromParam.getD "")
  let toCurrency := pyUpper (req.toParam.getD "")
  let amountStr := req.amountParam.getD ""
  if fromCurrency = "" ∨ toCurrency = "" ∨ amountStr = "" then
    (.missingParams ["from", "to", "amount"] "/convert?from=EUR&to=USD&amount=100", cache, 0)
  else
    match pyDecimalParse amountStr with
    | none => (.amountInvalid, cache, 0)
    | some amount =>
      match amount.le (.finite ⟨0, 0⟩) with
      | .error _ => (.amountInvalid, cache, 0)
      | .ok true => (.amountNotPositive, cache, 0)
      | .ok false =>
        match get_exchange_rate cache now outcome fromCurrency toCurrency with
        | (.error _, cache1, calls) => (.internalError, cache1, calls)
        | (.ok none, cache1, calls) => (.rateUnavailable, cache1, calls)
        | (.ok (some rate), cache1, calls) =>
          match amount.mul rate with
          | .error _ => (.internalError, cache1, calls)
          | .ok product =>
            match product.quantize2 with
            | .error _ => (.internalError, cache1, calls)
            | .ok convertedAmount =>
              (.success fromCurrency toCurrency amount convertedAmount rate, cache1, calls)

/-! ### Trace ids (lines 42-48, 65, 196, 241) -/

/-- Line 45: `request.trace_id = request.headers.get('X-Trace-ID',
str(uuid.uuid4()))` — the inbound header when present, else the freshly
generated identifier. -/
def traceId (inboundHeader : Option String) (freshUuid : String) : String :=
  inboundHeader.getD freshUuid

/-- Line 65: `after_request` sets the `X-Trace-ID` response header to the
request's trace id, on every response. -/
def responseTraceHeader (inboundHeader : Option String) (freshUuid : String) : String :=
  traceId inboundHeader freshUuid

/-- A JSON error body as the 404 and 500 handlers build it: the `error`
message, the optional `path` field, and the optional `trace_id` field. -/
structure ErrorBody where
  error : String
  path : Option String
  bodyTraceId : Option String
  deriving DecidableEq

/-- The 404 handler (lines 227-233): body with the error message, the
request path and the request's trace id, status 404. -/
def not_found (path : String) (tid : String) : ErrorBody × ℕ :=
  (⟨"Endpoint non trouvé", some path, some tid⟩, 404)

/-- The 500 handler (lines 235-242): body with the error message and the
request's trace id, status 500. -/
def internal_error (tid : String) : ErrorBody × ℕ :=
  (⟨"Erreur interne du serveur", none, some tid⟩, 500)

/-! ### Specification-side definitions -/

/-- Round-half-up to two fractional digits on exact rationals: the
rounding rule the specification prescribes for the conversion.  Written
with the integer floor so that it is defined for every rational. -/
def roundHalfUp2 (x : ℚ) : ℚ :=
  if 0 ≤ x then (⌊x * 100 + 1 / 2⌋ : ℚ) / 100 else -((⌊-x * 100 + 1 / 2⌋ : ℚ) / 100)

/-- Modelled from the spec: `r` is `x` "rounded to exactly 2 fractional
digits using round-half-up (ties round away from zero)" — `r` is an
integer multiple of `1/100`, at distance at most `1/200` from `x`, and
when the distance is exactly `1/200` (a tie) `r` has the larger
magnitude. -/
def IsHalfUpRounding2 (x r : ℚ) : Prop :=
  (∃ k : ℤ, r = (k : ℚ) / 100) ∧ |x - r| ≤ 1 / 200 ∧ (|x - r| = 1 / 200 → |x| < |r|)

/-- rate > 0, the cache-entry invariant claimed by the specification
(`Infinity` compares greater than zero in Python). -/
def RatePositive : PyDecimal → Prop
  | .finite d => 0 < d.toRat
  | .posInf => True
  | .negInf => False
  | .nan => False

/-- Every entry of the cache satisfies the claimed `rate > 0` invariant. -/
def CacheRatesPositive (c : Cache) : Prop :=
  ∀ k cr, c k = some cr → RatePositive cr.rate

/-! ### Lemmas about the decimal arithmetic -/

theorem DecFin.toRat_mk (m e : ℤ) : DecFin.toRat ⟨m, e⟩ = (m : ℚ) * (10 : ℚ) ^ e := rfl

theorem ten_zpow_pos (e : ℤ) : (0 : ℚ) < (10 : ℚ) ^ e :=
  zpow_pos (by norm_num) e

theorem ten_zpow_two : (10 : ℚ) ^ (2 : ℤ) = 100 := by
  rw [show (2 : ℤ) = ((2 : ℕ) : ℤ) from rfl, zpow_natCast]
  norm_num

theorem DecFin.toRat_exp_neg_two (k : ℤ) : DecFin.toRat ⟨k, -2⟩ = (k : ℚ) / 100 := by
  rw [DecFin.toRat_mk, div_eq_mul_inv, show (-2 : ℤ) = -(2 : ℤ) from rfl, zpow_neg, ten_zpow_two]

theorem DecFin.toRat_nonneg_of_man_nonneg {a : DecFin} (h : 0 ≤ a.man) : 0 ≤ a.toRat :=
  mul_nonneg (by exact_mod_cast h) (le_of_lt (ten_zpow_pos a.exp))

theorem DecFin.toRat_neg_of_man_neg {a : DecFin} (h : a.man < 0) : a.toRat < 0 :=
  mul_neg_of_neg_of_pos (by exact_mod_cast h) (ten_zpow_pos a.exp)

theorem DecFin.toRat_pos_iff (a : DecFin) : 0 < a.toRat ↔ 0 < a.man := by
  have hdef : a.toRat = (a.man : ℚ) * (10 : ℚ) ^ a.exp := rfl
  have h10 := ten_zpow_pos a.exp
  constructor
  · intro h
    by_contra hm
    push_neg at hm
    have hm' : (a.man : ℚ) ≤ 0 := by exact_mod_cast hm
    rw [hdef] at h
    nlinarith
  · intro h
    rw [hdef]
    exact mul_pos (by exact_mod_cast h) h10

/-- Ideal product of two finite decimals: when the context does not round,
the coefficients multiply and the exponents add, and the value is the
exact rational product. -/
theorem DecFin.toRat_mulExact (a b : DecFin) :
    DecFin.toRat ⟨a.man * b.man, a.exp + b.exp⟩ = a.toRat * b.toRat := by
  simp only [DecFin.toRat_mk, DecFin.toRat]
  rw [zpow_add₀ (by norm_num : (10 : ℚ) ≠ 0)]
  push_cast
  ring

/-- `⌊na / d + 1/2⌋` is the half-up rounding of the nonnegative fraction
`na / d`, computed from the integer division `na = d * (na / d) + na % d`
the way `DecFin.quantize2` computes it. -/
theorem floor_half_up (na d : ℕ) (hd : 0 < d) :
    ⌊(na : ℚ) / (d : ℚ) + 1 / 2⌋
      = if d ≤ 2 * (na % d) then ((na / d : ℕ) : ℤ) + 1 else ((na / d : ℕ) : ℤ) := by
  have hdq : (0 : ℚ) < (d : ℚ) := by exact_mod_cast hd
  have hdne : (d : ℚ) ≠ 0 := ne_of_gt hdq
  have hsplit : (na : ℚ) = (d : ℚ) * ((na / d : ℕ) : ℚ) + ((na % d : ℕ) : ℚ) := by
    exact_mod_cast (Nat.div_add_mod na d).symm
  have hna : (na : ℚ) / (d : ℚ) = ((na / d : ℕ) : ℚ) + ((na % d : ℕ) : ℚ) / (d : ℚ) := by
    rw [hsplit]
    field_simp
    ring
  have hrd0 : (0 : ℚ) ≤ ((na % d : ℕ) : ℚ) / (d : ℚ) :=
    div_nonneg (by positivity) (le_of_lt hdq)
  have hrd1 : ((na % d : ℕ) : ℚ) / (d : ℚ) < 1 :=
    (div_lt_one hdq).mpr (by exact_mod_cast Nat.mod_lt na hd)
  by_cases hc : d ≤ 2 * (na % d)
  · rw [if_pos hc, Int.floor_eq_iff]
    have hhalf : (1 : ℚ) / 2 ≤ ((na % d : ℕ) : ℚ) / (d : ℚ) := by
      rw [le_div_iff₀ hdq]
      have : (d : ℚ) ≤ 2 * ((na % d : ℕ) : ℚ) := by exact_mod_cast hc
      linarith
    constructor
    · simp only [Int.cast_add, Int.cast_one, Int.cast_natCast]
      rw [hna]
      linarith
    · simp only [Int.cast_add, Int.cast_one, Int.cast_natCast]
      rw [hna]
      linarith
  · rw [if_neg hc, Int.floor_eq_iff]
    have hhalf : ((na % d : ℕ) : ℚ) / (d : ℚ) < (1 : ℚ) / 2 := by
      rw [div_lt_iff₀ hdq]
      have : 2 * ((na % d : ℕ) : ℚ) < (d : ℚ) := by
        exact_mod_cast Nat.lt_of_not_le hc
      linarith
    constructor
    · simp only [Int.cast_natCast]
      rw [hna]
      linarith
    · simp only [Int.cast_natCast]
      rw [hna]
      linarith

/-- The code's rounding (`roundHalfUp2`) satisfies the specification's
characterisation of round-half-up to two fractional digits. -/
theorem roundHalfUp2_isHalfUp (x : ℚ) : IsHalfUpRounding2 x (roundHalfUp2 x) := by
  unfold IsHalfUpRounding2 roundHalfUp2
  rcases le_or_lt 0 x with hx | hx
  · rw [if_pos hx]
    have h1 : (⌊x * 100 + 1 / 2⌋ : ℚ) ≤ x * 100 + 1 / 2 := Int.floor_le _
    have h2 : x * 100 + 1 / 2 < ⌊x * 100 + 1 / 2⌋ + 1 := Int.lt_floor_add_one _
    refine ⟨⟨⌊x * 100 + 1 / 2⌋, rfl⟩, ?_, ?_⟩
    · rw [abs_le]
      constructor <;> linarith
    · intro habs
      have hlt : x - (⌊x * 100 + 1 / 2⌋ : ℚ) / 100 < 1 / 200 := by linarith
      have heq : x - (⌊x * 100 + 1 / 2⌋ : ℚ) / 100 = -(1 / 200) := by
        rcases (abs_eq (by norm_num : (0 : ℚ) ≤ 1 / 200)).mp habs with h | h
        · linarith
        · exact h
      rw [abs_of_nonneg hx, abs_of_nonneg (by linarith : (0 : ℚ) ≤ (⌊x * 100 + 1 / 2⌋ : ℚ) / 100)]
      linarith
  · rw [if_neg (not_le.mpr hx)]
    have h1 : (⌊-x * 100 + 1 / 2⌋ : ℚ) ≤ -x * 100 + 1 / 2 := Int.floor_le _
    have h2 : -x * 100 + 1 / 2 < ⌊-x * 100 + 1 / 2⌋ + 1 := Int.lt_floor_add_one _
    refine ⟨⟨-⌊-x * 100 + 1 / 2⌋, by push_cast; ring⟩, ?_, ?_⟩
    · rw [abs_le]
      constructor <;> linarith
    · intro habs
      have hgt : -(1 / 200) < x - -((⌊-x * 100 + 1 / 2⌋ : ℚ) / 100) := by linarith
      have heq : x - -((⌊-x * 100 + 1 / 2⌋ : ℚ) / 100) = 1 / 200 := by
        rcases (abs_eq (by norm_num : (0 : ℚ) ≤ 1 / 200)).mp habs with h | h
        · exact h
        · linarith
      rw [abs_of_neg hx, abs_of_neg (by linarith : -((⌊-x * 100 + 1 / 2⌋ : ℚ) / 100) < 0)]
      linarith

theorem floor_one_half : ⌊(1 : ℚ) / 2⌋ = 0 := by
  rw [Int.floor_eq_zero_iff]
  constructor <;> norm_num

/-- Half-up rounding fixes every integer multiple of `1/100`. -/
theorem roundHalfUp2_int_div (n : ℤ) : roundHalfUp2 ((n : ℚ) / 100) = (n : ℚ) / 100 := by
  unfold roundHalfUp2
  rcases le_or_lt 0 ((n : ℚ) / 100) with h | h
  · rw [if_pos h]
    have harg : (n : ℚ) / 100 * 100 + 1 / 2 = 1 / 2 + (n : ℚ) := by
      rw [div_mul_cancel₀ _ (by norm_num : (100 : ℚ) ≠ 0)]
      ring
    rw [harg, Int.floor_add_int, floor_one_half]
    push_cast
    ring
  · rw [if_neg (not_le.mpr h)]
    have harg : -((n : ℚ) / 100) * 100 + 1 / 2 = 1 / 2 + ((-n : ℤ) : ℚ) := by
      push_cast
      field_simp
      ring
    rw [harg, Int.floor_add_int, floor_one_half]
    push_cast
    ring

/-- The rounded coefficient computed by integer division agrees with the
floor form of half-up rounding. -/
theorem halfUpCoeff_cast (a : DecFin) :
    ((halfUpCoeff a : ℕ) : ℤ)
      = ⌊(a.man.natAbs : ℚ) / ((10 ^ (-(a.exp + 2)).toNat : ℕ) : ℚ) + 1 / 2⌋ := by
  unfold halfUpCoeff
  rw [floor_half_up _ _ (pow_pos (by norm_num) _)]
  split_ifs with hc
  · push_cast
    ring
  · rfl

/-- Value correctness of `quantize`: whenever
`a.quantize(Decimal('0.01'), ROUND_HALF_UP)` does not raise, its value is
the half-up two-digit rounding of the value of `a`. -/
theorem DecFin.quantize2_toRat {a c : DecFin} (h : a.quantize2 = .ok c) :
    c.toRat = roundHalfUp2 a.toRat := by
  unfold DecFin.quantize2 at h
  by_cases he : -2 ≤ a.exp
  · rw [if_pos he] at h
    by_cases hfit : numDigits (a.man * (10 : ℤ) ^ (a.exp + 2).toNat).natAbs ≤ contextPrec
    · rw [if_pos hfit] at h
      simp only [Except.ok.injEq] at h
      subst h
      have hexp : (((a.exp + 2).toNat : ℕ) : ℤ) = a.exp + 2 := Int.toNat_of_nonneg (by omega)
      have hval : a.toRat = ((a.man * (10 : ℤ) ^ (a.exp + 2).toNat : ℤ) : ℚ) / 100 := by
        simp only [DecFin.toRat]
        push_cast
        rw [← zpow_natCast (10 : ℚ) ((a.exp + 2).toNat), hexp,
          zpow_add₀ (by norm_num : (10 : ℚ) ≠ 0), ten_zpow_two]
        field_simp
        ring
      rw [DecFin.toRat_exp_neg_two, hval, roundHalfUp2_int_div]
    · rw [if_neg hfit] at h
      simp at h
  · rw [if_neg he] at h
    by_cases hfit : numDigits (halfUpCoeff a) ≤ contextPrec
    · rw [if_pos hfit] at h
      simp only [Except.ok.injEq] at h
      subst h
      rw [DecFin.toRat_exp_neg_two]
      have hepow : (10 : ℚ) ^ a.exp * 100 = (((10 ^ (-(a.exp + 2)).toNat : ℕ) : ℚ))⁻¹ := by
        have h1 : ((10 ^ (-(a.exp + 2)).toNat : ℕ) : ℚ) = (10 : ℚ) ^ ((-(a.exp + 2)).toNat : ℕ) := by
          push_cast
          ring
        have h2 : (((-(a.exp + 2)).toNat : ℕ) : ℤ) = -(a.exp + 2) := Int.toNat_of_nonneg (by omega)
        rw [h1, ← zpow_natCast (10 : ℚ) ((-(a.exp + 2)).toNat), h2, zpow_neg, inv_inv,
          zpow_add₀ (by norm_num : (10 : ℚ) ≠ 0), ten_zpow_two]
      rcases lt_or_le a.man 0 with hm | hm
      · rw [if_pos hm]
        have hx : a.toRat < 0 := DecFin.toRat_neg_of_man_neg hm
        unfold roundHalfUp2
        rw [if_neg (not_le.mpr hx)]
        suffices hq : ((halfUpCoeff a : ℕ) : ℤ) = ⌊-a.toRat * 100 + 1 / 2⌋ by
          rw [← hq]
          push_cast
          ring
        rw [halfUpCoeff_cast]
        congr 1
        have hna : ((a.man.natAbs : ℕ) : ℚ) = -(a.man : ℚ) := by
          rw [Int.cast_natAbs]
          exact_mod_cast abs_of_neg hm
        rw [div_eq_mul_inv, hna, ← hepow]
        simp only [DecFin.toRat]
        ring
      · rw [if_neg (not_lt.mpr hm)]
        have hx : 0 ≤ a.toRat := DecFin.toRat_nonneg_of_man_nonneg hm
        unfold roundHalfUp2
        rw [if_pos hx]
        suffices hq : ((halfUpCoeff a : ℕ) : ℤ) = ⌊a.toRat * 100 + 1 / 2⌋ by
          rw [← hq]
        rw [halfUpCoeff_cast]
        congr 1
        have hna : ((a.man.natAbs : ℕ) : ℚ) = (a.man : ℚ) := by
          rw [Int.cast_natAbs]
          exact_mod_cast abs_of_nonneg hm
        rw [div_eq_mul_inv, hna, ← hepow]
        simp only [DecFin.toRat]
        ring
    · rw [if_neg hfit] at h
      simp at h

/-! ### Lemmas about the handlers -/

theorem pyUpper_eq_empty_iff (s : String) : pyUpper s = "" ↔ s = "" := by
  constructor
  · intro h
    have hdata : s.data.map Char.toUpper = [] := congrArg String.data h
    have hnil : s.data = [] := List.map_eq_nil_iff.mp hdata
    exact String.ext (by rw [hnil])
  · rintro rfl
    rfl

/-- The fetch-and-store path always performs exactly one outbound call. -/
theorem fetchAndStore_calls (cache : Cache) (now : ℚ) (outcome : HttpOutcome)
    (cacheKey toCurrency : String) :
    (fetchAndStore cache now outcome cacheKey toCurrency).2.2 = 1 := by
  unfold fetchAndStore
  rcases fetchAttempt outcome toCurrency with e | o
  · rfl
  · rcases o with _ | r <;> rfl

/-- A handled fetch failure returns `None` and leaves the cache untouched. -/
theorem fetchAndStore_none (cache : Cache) (now : ℚ) (outcome : HttpOutcome)
    (cacheKey toCurrency : String) (h : fetchAttempt outcome toCurrency = .ok none) :
    fetchAndStore cache now outcome cacheKey toCurrency = (.ok none, cache, 1) := by
  unfold fetchAndStore
  rw [h]

/-- An uncaught exception during the fetch leaves the cache untouched. -/
theorem fetchAndStore_error (cache : Cache) (now : ℚ) (outcome : HttpOutcome)
    (cacheKey toCurrency : String) (e : PyError)
    (h : fetchAttempt outcome toCurrency = .error e) :
    fetchAndStore cache now outcome cacheKey toCurrency = (.error e, cache, 1) := by
  unfold fetchAndStore
  rw [h]

/-- When the cache holds no fresh entry for the pair, `get_exchange_rate`
is exactly the fetch-and-store path. -/
theorem get_exchange_rate_stale_or_missing (cache : Cache) (now : ℚ) (outcome : HttpOutcome)
    (fromCurrency toCurrency : String)
    (hnc : ∀ cd, cache (fromCurrency ++ "_" ++ toCurrency) = some cd →
      3600 ≤ now - cd.timestamp) :
    get_exchange_rate cache now outcome fromCurrency toCurrency
      = fetchAndStore cache now outcome (fromCurrency ++ "_" ++ toCurrency) toCurrency := by
  unfold get_exchange_rate
  rcases hc : cache (fromCurrency ++ "_" ++ toCurrency) with _ | cd
  · rfl
  · dsimp only
    rw [if_neg (not_lt.mpr (hnc cd hc))]

/-- Requests that survive the parameter validation never produce one of
the three validation errors, whatever the cache, clock, currency codes
and provider outcome are. -/
theorem convert_validation_passes (fromParam toParam amountStr : String) (d : PyDecimal)
    (cache : Cache) (now : ℚ) (outcome : HttpOutcome)
    (hf : fromParam ≠ "") (ht : toParam ≠ "")
    (hparse : pyDecimalParse amountStr = some d)
    (hpos : d.le (.finite ⟨0, 0⟩) = .ok false) :
    ((convert ⟨some fromParam, some toParam, some amountStr⟩ cache now outcome).1).isValidationError
      = false := by
  have ha : amountStr ≠ "" := by
    intro h
    have hnone : pyDecimalParse "" = none := by decide
    rw [h, hnone] at hparse
    exact Option.noConfusion hparse
  have hcond : ¬(pyUpper fromParam = "" ∨ pyUpper toParam = "" ∨ amountStr = "") := by
    rintro (h | h | h)
    · exact hf ((pyUpper_eq_empty_iff fromParam).mp h)
    · exact ht ((pyUpper_eq_empty_iff toParam).mp h)
    · exact ha h
  unfold convert
  dsimp only [Option.getD]
  rw [if_neg hcond]
  simp only [hparse, hpos]
  rcases get_exchange_rate cache now outcome (pyUpper fromParam) (pyUpper toParam)
    with ⟨res, cache1, calls⟩
  rcases res with e | o
  · rfl
  · rcases o with _ | rate
    · rfl
    · dsimp only
      rcases PyDecimal.mul d rate with e2 | p
      · rfl
      · dsimp only
        rcases p.quantize2 with e3 | cv <;> rfl

/-! ### The claims -/

/-- C1 (amended): for every positive amount and every rate whose ideal
product's coefficient fits in the 28-significant-digit context precision
(so the `Decimal` multiplication at line 178 is exact), whenever the
quantize step returns a result, that result is exactly `amount * rate`
rounded to two fractional digits, round-half-up with ties away from zero,
in exact decimal arithmetic. -/
theorem c1_convert_rounds_half_up (amount rate c : DecFin)
    (hpos : 0 < amount.toRat)
    (hfit : numDigits (amount.man * rate.man).natAbs ≤ contextPrec)
    (hok : DecFin.quantize2 (DecFin.mulCtx amount rate) = .ok c) :
    c.toRat = roundHalfUp2 (amount.toRat * rate.toRat)
      ∧ IsHalfUpRounding2 (amount.toRat * rate.toRat) c.toRat := by
  have hmul : DecFin.mulCtx amount rate = ⟨amount.man * rate.man, amount.exp + rate.exp⟩ := by
    unfold DecFin.mulCtx
    rw [if_pos hfit]
  rw [hmul] at hok
  have hv := DecFin.quantize2_toRat hok
  rw [DecFin.toRat_mulExact] at hv
  exact ⟨hv, hv ▸ roundHalfUp2_isHalfUp _⟩

/-- C1 witness: the specification's own tie case, amount 0.5 at rate 0.01
(raw product 0.005, which rounds up to 0.01). -/
theorem c1_convert_rounds_half_up_witness :
    DecFin.toRat ⟨1, -2⟩ = roundHalfUp2 (DecFin.toRat ⟨5, -1⟩ * DecFin.toRat ⟨1, -2⟩)
      ∧ IsHalfUpRounding2 (DecFin.toRat ⟨5, -1⟩ * DecFin.toRat ⟨1, -2⟩) (DecFin.toRat ⟨1, -2⟩) :=
  c1_convert_rounds_half_up ⟨5, -1⟩ ⟨1, -2⟩ ⟨1, -2⟩
    ((DecFin.toRat_pos_iff ⟨5, -1⟩).mpr (by decide)) (by decide) (by decide)

/-- C1 counterexample: amount `12.004999999999999999999999995` at rate 1
passes validation, but the 29-digit ideal product is first rounded
half-even to the default context's 28 significant digits, giving
12.00500000000000000000000000, which then quantizes to 12.01 — while the
exact product half-up-rounds to 12.00.  The delivered `convertedAmount`
is not the half-up rounding of `amount * rate`. -/
theorem c1_counterexample :
    (convert ⟨some "EUR", some "USD", some "12.004999999999999999999999995"⟩ (fun _ => none) 0
        (.response 200 (some (.obj [("rates", .obj [("USD", .num ⟨1, 0⟩)])])))).1
      = .success "EUR" "USD" (.finite ⟨12004999999999999999999999995, -27⟩)
          (.finite ⟨1201, -2⟩) (.finite ⟨1, 0⟩)
    ∧ ¬ IsHalfUpRounding2
        (DecFin.toRat ⟨12004999999999999999999999995, -27⟩ * DecFin.toRat ⟨1, 0⟩)
        (DecFin.toRat ⟨1201, -2⟩) := by
  constructor
  · decide
  · have hx : DecFin.toRat ⟨12004999999999999999999999995, -27⟩ * DecFin.toRat ⟨1, 0⟩
        = (12004999999999999999999999995 : ℚ) / 10 ^ (27 : ℕ) := by
      rw [DecFin.toRat_mk, DecFin.toRat_mk]
      rw [show (-27 : ℤ) = -((27 : ℕ) : ℤ) by norm_num, zpow_neg, zpow_natCast, zpow_zero]
      ring
    have hr : DecFin.toRat ⟨1201, -2⟩ = (1201 : ℚ) / 100 := DecFin.toRat_exp_neg_two 1201
    intro hcontra
    have habs := hcontra.2.1
    rw [hx, hr, abs_le] at habs
    have h1 := habs.1
    norm_num at h1

/-- C2: when the cache holds an entry for the pair key, a request within
3600 seconds of the fetch returns the cached rate, makes no outbound call
and leaves the cache untouched; and an entry 3600 seconds old or older
triggers an outbound call — the freshness test is exactly
`now - fetchedAt < 3600`. -/
theorem c2_fresh_cache_hit (cache : Cache) (now : ℚ) (outcome : HttpOutcome)
    (fromCurrency toCurrency : String) (cd : CachedRate)
    (hentry : cache (fromCurrency ++ "_" ++ toCurrency) = some cd) :
    (now - cd.timestamp < 3600 →
      get_exchange_rate cache now outcome fromCurrency toCurrency
        = (.ok (some cd.rate), cache, 0))
    ∧ (¬ now - cd.timestamp < 3600 →
      (get_exchange_rate cache now outcome fromCurrency toCurrency).2.2 = 1) := by
  constructor
  · intro hfresh
    unfold get_exchange_rate
    simp only [hentry]
    rw [if_pos hfresh]
  · intro hstale
    unfold get_exchange_rate
    simp only [hentry]
    rw [if_neg hstale]
    exact fetchAndStore_calls cache now outcome (fromCurrency ++ "_" ++ toCurrency) toCurrency

/-- C2 witness: a 100-second-old entry for EUR→USD is served from the
cache even though the provider is unreachable. -/
theorem c2_fresh_cache_hit_witness :
    get_exchange_rate
        (fun k => if k = "EUR_USD" then some ⟨.finite ⟨11, -1⟩, (0 : ℚ)⟩ else none)
        100 .networkError "EUR" "USD"
      = (.ok (some (.finite ⟨11, -1⟩)),
         fun k => if k = "EUR_USD" then some ⟨.finite ⟨11, -1⟩, (0 : ℚ)⟩ else none, 0) :=
  (c2_fresh_cache_hit (fun k => if k = "EUR_USD" then some ⟨.finite ⟨11, -1⟩, (0 : ℚ)⟩ else none)
      100 .networkError "EUR" "USD" ⟨.finite ⟨11, -1⟩, 0⟩ (by decide)).1 (by norm_num)

/-- C3: a cached entry 3600 seconds old or older triggers exactly one
outbound call and, on success, the entry for the pair key is overwritten
with the new rate and the current timestamp; every other key is
untouched (the cache maps each key to at most one entry by
construction). -/
theorem c3_stale_refetch_overwrites (cache : Cache) (now : ℚ) (outcome : HttpOutcome)
    (fromCurrency toCurrency : String) (cd : CachedRate) (rate : PyDecimal)
    (hentry : cache (fromCurrency ++ "_" ++ toCurrency) = some cd)
    (hstale : 3600 ≤ now - cd.timestamp)
    (hfetch : fetchAttempt outcome toCurrency = .ok (some rate)) :
    get_exchange_rate cache now outcome fromCurrency toCurrency
      = (.ok (some rate),
         fun k => if k = fromCurrency ++ "_" ++ toCurrency then some ⟨rate, now⟩ else cache k,
         1) := by
  unfold get_exchange_rate
  simp only [hentry]
  rw [if_neg (not_lt.mpr hstale)]
  unfold fetchAndStore
  rw [hfetch]

/-- C3 witness: a 4000-second-old entry for EUR→USD is refetched (one
call) and overwritten with the new rate 2 at the current time. -/
theorem c3_stale_refetch_overwrites_witness :
    get_exchange_rate
        (fun k => if k = "EUR_USD" then some ⟨.finite ⟨11, -1⟩, (0 : ℚ)⟩ else none)
        4000 (.response 200 (some (.obj [("rates", .obj [("USD", .num ⟨2, 0⟩)])]))) "EUR" "USD"
      = (.ok (some (.finite ⟨2, 0⟩)),
         fun k => if k = "EUR" ++ "_" ++ "USD" then some ⟨.finite ⟨2, 0⟩, 4000⟩
           else (fun k => if k = "EUR_USD" then some ⟨.finite ⟨11, -1⟩, (0 : ℚ)⟩ else none) k,
         1) :=
  c3_stale_refetch_overwrites
    (fun k => if k = "EUR_USD" then some ⟨.finite ⟨11, -1⟩, (0 : ℚ)⟩ else none)
    4000 (.response 200 (some (.obj [("rates", .obj [("USD", .num ⟨2, 0⟩)])]))) "EUR" "USD"
    ⟨.finite ⟨11, -1⟩, 0⟩ (.finite ⟨2, 0⟩) (by decide) (by norm_num) (by decide)

/-- C4: when the fetch fails in a handled way (`get_exchange_rate`
returns `None`), `/convert` answers 400 with the generic
rate-unavailable message and the cache is exactly as before — no entry
added, removed or modified. -/
theorem c4_fetch_failure_unavailable (fromParam toParam amountStr : String) (cache : Cache)
    (now : ℚ) (outcome : HttpOutcome) (amount : PyDecimal)
    (hf : fromParam ≠ "") (ht : toParam ≠ "")
    (hparse : pyDecimalParse amountStr = some amount)
    (hposamt : amount.le (.finite ⟨0, 0⟩) = .ok false)
    (hnc : ∀ cd, cache (pyUpper fromParam ++ "_" ++ pyUpper toParam) = some cd →
      3600 ≤ now - cd.timestamp)
    (hfail : fetchAttempt outcome (pyUpper toParam) = .ok none) :
    convert ⟨some fromParam, some toParam, some amountStr⟩ cache now outcome
      = (.rateUnavailable, cache, 1)
    ∧ ConvertResponse.status .rateUnavailable = 400
    ∧ ConvertResponse.errorMessage .rateUnavailable = some "Taux de change non disponible" := by
  refine ⟨?_, rfl, rfl⟩
  have ha : amountStr ≠ "" := by
    intro h
    have hnone : pyDecimalParse "" = none := by decide
    rw [h, hnone] at hparse
    exact Option.noConfusion hparse
  have hcond : ¬(pyUpper fromParam = "" ∨ pyUpper toParam = "" ∨ amountStr = "") := by
    rintro (h | h | h)
    · exact hf ((pyUpper_eq_empty_iff fromParam).mp h)
    · exact ht ((pyUpper_eq_empty_iff toParam).mp h)
    · exact ha h
  have hrate : get_exchange_rate cache now outcome (pyUpper fromParam) (pyUpper toParam)
      = (.ok none, cache, 1) := by
    rw [get_exchange_rate_stale_or_missing cache now outcome (pyUpper fromParam)
      (pyUpper toParam) hnc]
    exact fetchAndStore_none cache now outcome
      (pyUpper fromParam ++ "_" ++ pyUpper toParam) (pyUpper toParam) hfail
  unfold convert
  dsimp only [Option.getD]
  rw [if_neg hcond]
  simp only [hparse, hposamt]
  rw [hrate]

/-- C4 witness: EUR→USD for amount 100 with an unreachable provider and
an empty cache: 400 rate-unavailable, cache still empty. -/
theorem c4_fetch_failure_unavailable_witness :
    convert ⟨some "EUR", some "USD", some "100"⟩ (fun _ => none) 0 .networkError
      = (.rateUnavailable, fun _ => none, 1)
    ∧ ConvertResponse.status .rateUnavailable = 400
    ∧ ConvertResponse.errorMessage .rateUnavailable = some "Taux de change non disponible" :=
  c4_fetch_failure_unavailable "EUR" "USD" "100" (fun _ => none) 0 .networkError
    (.finite ⟨100, 0⟩) (by decide) (by decide) (by decide) (by decide)
    (fun cd h => nomatch h) (by decide)

/-- C5 (amended): the fetch makes its single outbound attempt with a
10-second timeout, and every failure mode the `except` clauses handle —
network failure, timeout, non-success (4xx/5xx) status, a body that is
not valid JSON, a JSON object without a `rates` field, or a `rates`
object without the target currency — returns the typed absence `None`
rather than raising; a request makes at most one outbound call.  (A
`rates` value that is `null`, a boolean, a non-numeric string, a list or
an object instead raises an uncaught exception, and so does a non-object
body — see the counterexample.) -/
theorem c5_fetch_failure_modes (toCurrency : String) :
    requestsGetTimeoutSeconds = 10
    ∧ fetchAttempt .networkError toCurrency = .ok none
    ∧ fetchAttempt .timeoutError toCurrency = .ok none
    ∧ (∀ status body, 400 ≤ status → status < 600 →
        fetchAttempt (.response status body) toCurrency = .ok none)
    ∧ (∀ status, ¬(400 ≤ status ∧ status < 600) →
        fetchAttempt (.response status none) toCurrency = .ok none)
    ∧ (∀ status fields, ¬(400 ≤ status ∧ status < 600) →
        fields.find? (fun kv => kv.1 == "rates") = none →
        fetchAttempt (.response status (some (.obj fields))) toCurrency = .ok none)
    ∧ (∀ status fields kv rfields, ¬(400 ≤ status ∧ status < 600) →
        fields.find? (fun kv0 => kv0.1 == "rates") = some kv →
        kv.2 = .obj rfields →
        rfields.find? (fun kv2 => kv2.1 == toCurrency) = none →
        fetchAttempt (.response status (some (.obj fields))) toCurrency = .ok none)
    ∧ (∀ (cache : Cache) (now : ℚ) (outcome : HttpOutcome) (fromCurrency : String),
        (get_exchange_rate cache now outcome fromCurrency toCurrency).2.2 ≤ 1) := by
  refine ⟨rfl, rfl, rfl, ?_, ?_, ?_, ?_, ?_⟩
  · intro s b h1 h2
    simp only [fetchAttempt]
    rw [if_pos ⟨h1, h2⟩]
  · intro s h
    simp only [fetchAttempt]
    rw [if_neg h]
  · intro s fields h hfind
    simp only [fetchAttempt]
    rw [if_neg h]
    simp only [hfind]
  · intro s fields kv rfields h hfind hkv hfind2
    simp only [fetchAttempt]
    rw [if_neg h]
    simp only [hfind, hkv, hfind2]
  · intro cache now outcome fromCurrency
    unfold get_exchange_rate
    rcases cache (fromCurrency ++ "_" ++ toCurrency) with _ | cd
    · exact le_of_eq (fetchAndStore_calls _ _ _ _ _)
    · dsimp only
      by_cases hfr : now - cd.timestamp < 3600
      · rw [if_pos hfr]
        exact Nat.zero_le 1
      · rw [if_neg hfr]
        exact le_of_eq (fetchAndStore_calls _ _ _ _ _)

/-- C5 witness: a 503 answer (even with a JSON body) yields `None`. -/
theorem c5_fetch_failure_modes_witness :
    fetchAttempt (.response 503 (some .null)) "USD" = .ok none :=
  (c5_fetch_failure_modes "USD").2.2.2.1 503 (some .null) (by norm_num) (by norm_num)

/-- C5 counterexample: a 200 response whose `rates` value for the target
currency is JSON `null` makes `Decimal(str(None))` raise
`decimal.InvalidOperation`, which `except (KeyError, ValueError)` does
not catch — that failure mode raises an unhandled exception instead of
returning a typed absence. -/
theorem c5_counterexample :
    fetchAttempt (.response 200 (some (.obj [("rates", .obj [("USD", .null)])]))) "USD"
      = .error .invalidOperation := by decide

/-- The fetch-and-store path preserves the rate-positivity invariant as
long as the rate it stores is positive. -/
theorem fetchAndStore_preserves_positive (cache : Cache) (now : ℚ) (outcome : HttpOutcome)
    (cacheKey toCurrency : String)
    (hc : CacheRatesPositive cache)
    (hr : ∀ r, fetchAttempt outcome toCurrency = .ok (some r) → RatePositive r) :
    CacheRatesPositive (fetchAndStore cache now outcome cacheKey toCurrency).2.1 := by
  unfold fetchAndStore
  rcases hfa : fetchAttempt outcome toCurrency with e | o
  · exact hc
  · rcases o with _ | r
    · exact hc
    · intro k cr hk
      have hk2 : (if k = cacheKey then some (⟨r, now⟩ : CachedRate) else cache k) = some cr := hk
      by_cases hkey : k = cacheKey
      · rw [if_pos hkey] at hk2
        injection hk2 with hk3
        subst hk3
        exact hr r hfa
      · rw [if_neg hkey] at hk2
        exact hc k cr hk2

/-- C7 (amended): the code performs no positivity check on a fetched
rate, so the `rate > 0` cache invariant is conditional: it is preserved
by `get_exchange_rate` provided every successfully fetched rate is
positive, and by `clear_cache` unconditionally.  A provider response
carrying a non-positive rate is stored as-is and breaks the invariant —
see the counterexample. -/
theorem c7_rate_positive_preserved (cache : Cache) (now : ℚ) (outcome : HttpOutcome)
    (fromCurrency toCurrency : String)
    (hc : CacheRatesPositive cache)
    (hr : ∀ r, fetchAttempt outcome toCurrency = .ok (some r) → RatePositive r) :
    CacheRatesPositive (get_exchange_rate cache now outcome fromCurrency toCurrency).2.1
    ∧ CacheRatesPositive (clear_cache cache) := by
  constructor
  · unfold get_exchange_rate
    rcases cache (fromCurrency ++ "_" ++ toCurrency) with _ | cd
    · exact fetchAndStore_preserves_positive cache now outcome _ _ hc hr
    · dsimp only
      by_cases hfr : now - cd.timestamp < 3600
      · rw [if_pos hfr]
        exact hc
      · rw [if_neg hfr]
        exact fetchAndStore_preserves_positive cache now outcome _ _ hc hr
  · intro k cr h
    exact Option.noConfusion h

/-- C7 witness: starting from the empty cache with an unreachable
provider, both the request path and a cache clear keep the invariant. -/
theorem c7_rate_positive_preserved_witness :
    CacheRatesPositive (get_exchange_rate (fun _ => none) 0 .networkError "EUR" "USD").2.1
    ∧ CacheRatesPositive (clear_cache (fun _ => none)) :=
  c7_rate_positive_preserved (fun _ => none) 0 .networkError "EUR" "USD"
    (fun k cr h => Option.noConfusion h) (fun r h => by simp [fetchAttempt] at h)

/-- C7 counterexample: a provider response with rate −1 is cached
verbatim — the stored entry violates `rate > 0`. -/
theorem c7_counterexample :
    (get_exchange_rate (fun _ => none) 0
        (.response 200 (some (.obj [("rates", .obj [("USD", .num ⟨-1, 0⟩)])]))) "EUR" "USD").2.1
        "EUR_USD"
      = some ⟨.finite ⟨-1, 0⟩, 0⟩
    ∧ ¬ CacheRatesPositive (get_exchange_rate (fun _ => none) 0
        (.response 200 (some (.obj [("rates", .obj [("USD", .num ⟨-1, 0⟩)])]))) "EUR" "USD").2.1 := by
  refine ⟨by decide, ?_⟩
  intro hinv
  have hbad := hinv "EUR_USD" ⟨.finite ⟨-1, 0⟩, 0⟩ (by decide)
  simp only [RatePositive] at hbad
  rw [DecFin.toRat_pos_iff] at hbad
  exact absurd hbad (by decide)

/-- C8 (amended): every response carries an `X-Trace-ID` header equal to
the inbound header when present and to the freshly generated identifier
otherwise; the identifier appears in the success body and in the 404 and
500 handler bodies, but the 400 error bodies of `/convert` contain no
trace id. -/
theorem c8_trace_header_and_bodies :
    (∀ v freshUuid, responseTraceHeader (some v) freshUuid = v)
    ∧ (∀ freshUuid, responseTraceHeader none freshUuid = freshUuid)
    ∧ (∀ tid f t am cv r, ConvertResponse.bodyTraceId tid (.success f t am cv r) = some tid)
    ∧ (∀ tid, ConvertResponse.bodyTraceId tid .internalError = some tid)
    ∧ (∀ path tid, (not_found path tid).1.bodyTraceId = some tid ∧ (not_found path tid).2 = 404)
    ∧ (∀ tid, (internal_error tid).1.bodyTraceId = some tid ∧ (internal_error tid).2 = 500)
    ∧ (∀ tid l ex, ConvertResponse.bodyTraceId tid (.missingParams l ex) = none)
    ∧ (∀ tid, ConvertResponse.bodyTraceId tid .amountNotPositive = none)
    ∧ (∀ tid, ConvertResponse.bodyTraceId tid .amountInvalid = none)
    ∧ (∀ tid, ConvertResponse.bodyTraceId tid .rateUnavailable = none) :=
  ⟨fun _ _ => rfl, fun _ => rfl, fun _ _ _ _ _ _ => rfl, fun _ => rfl,
   fun _ _ => ⟨rfl, rfl⟩, fun _ => ⟨rfl, rfl⟩,
   fun _ _ _ => rfl, fun _ => rfl, fun _ => rfl, fun _ => rfl⟩

/-- C8 counterexample: the 400 missing-parameter response is an error
response whose body carries no trace identifier at all, so the claim
that the identifier appears in error bodies fails. -/
theorem c8_counterexample :
    (convert ⟨some "EUR", some "USD", none⟩ (fun _ => none) 0 .networkError).1
      = .missingParams ["from", "to", "amount"] "/convert?from=EUR&to=USD&amount=100"
    ∧ ConvertResponse.status
        ((convert ⟨some "EUR", some "USD", none⟩ (fun _ => none) 0 .networkError).1) = 400
    ∧ ConvertResponse.bodyTraceId "id-1234"
        ((convert ⟨some "EUR", some "USD", none⟩ (fun _ => none) 0 .networkError).1) = none :=
  ⟨by decide, by decide, by decide⟩

/-- C9: the amount string `"Infinity"` parses as a `Decimal` that
compares greater than zero, so validation passes; the multiply succeeds
(`Infinity * 1.1 = Infinity`) and the quantize step raises
`InvalidOperation`, so the request ends in the 500 handler instead of a
conversion result or a 400 validation error. -/
theorem c9_infinity_amount_internal_error :
    pyDecimalParse "Infinity" = some .posInf
    ∧ PyDecimal.le .posInf (.finite ⟨0, 0⟩) = .ok false
    ∧ PyDecimal.mul .posInf (.finite ⟨11, -1⟩) = .ok .posInf
    ∧ PyDecimal.quantize2 .posInf = .error .invalidOperation
    ∧ (convert ⟨some "EUR", some "USD", some "Infinity"⟩ (fun _ => none) 0
        (.response 200 (some (.obj [("rates", .obj [("USD", .num ⟨11, -1⟩)])])))).1
      = .internalError
    ∧ ConvertResponse.status .internalError = 500 :=
  ⟨by decide, by decide, by decide, by decide, by decide, rfl⟩

/-- C10: validation never rejects on the currency codes: for every pair
of nonempty `from`/`to` strings — also ones outside the static
`supported_currencies` list served by `/currencies` — and every amount
accepted by the parse-and-positivity test, the request passes validation
whatever the cache, clock and provider outcome are. -/
theorem c10_no_currency_code_validation (fromParam toParam amountStr : String) (d : PyDecimal)
    (cache : Cache) (now : ℚ) (outcome : HttpOutcome)
    (hf : fromParam ≠ "") (ht : toParam ≠ "")
    (hparse : pyDecimalParse amountStr = some d)
    (hpos : d.le (.finite ⟨0, 0⟩) = .ok false) :
    ((convert ⟨some fromParam, some toParam, some amountStr⟩ cache now outcome).1).isValidationError
      = false :=
  convert_validation_passes fromParam toParam amountStr d cache now outcome hf ht hparse hpos

/-- C10 witness: `ZZZ` and `QQQ` are not supported currencies, yet the
request passes validation (it fails later, as rate-unavailable). -/
theorem c10_no_currency_code_validation_witness :
    ((convert ⟨some "ZZZ", some "QQQ", some "5"⟩ (fun _ => none) 0
        .networkError).1).isValidationError = false
    ∧ "ZZZ" ∉ supported_currencies :=
  ⟨c10_no_currency_code_validation "ZZZ" "QQQ" "5" (.finite ⟨5, 0⟩) (fun _ => none) 0
      .networkError (by decide) (by decide) (by decide) (by decide),
   by decide⟩

end CurrencyApp
